import Mathlib

/-!
Shallow embedding of the FastJudge judging pipeline (a local competitive
programming judge): output comparison, verdict determination, signal/exit-code
interpretation, the process executor's time-limit and cancellation handling,
the language registry, and the compilation cache.  Each definition mirrors one
function of the TypeScript source; theorems settle the specification claims.
-/

/- ======================================================================
   JavaScript string semantics (the subset the repository exercises).
   JS whitespace (`\s`, `trim`, `trimEnd`) is modelled by its ASCII members,
   which are the only ones the judge's data can contain.
   ====================================================================== -/

/-- JS whitespace test for the ASCII whitespace characters. -/
def isJSWhitespace (c : Char) : Bool :=
  c == ' ' || c == '\t' || c == '\n' || c == '\r' || c == '\x0b' || c == '\x0c'

/-- `String.prototype.trimEnd`: drop trailing whitespace. -/
def jsTrimEnd (s : String) : String :=
  String.mk ((s.data.reverse.dropWhile isJSWhitespace).reverse)

/-- `String.prototype.trim`: drop whitespace at both ends. -/
def jsTrim (s : String) : String :=
  String.mk (((s.data.dropWhile isJSWhitespace).reverse.dropWhile isJSWhitespace).reverse)

/-- Helper for `jsSplit`: accumulate the current field (reversed) while
scanning. -/
def jsSplitAux (sep : Char) : List Char → List Char → List String
  | [], acc => [String.mk acc.reverse]
  | c :: cs, acc =>
    if c == sep then String.mk acc.reverse :: jsSplitAux sep cs []
    else jsSplitAux sep cs (c :: acc)

/-- `String.prototype.split` with a one-character separator. -/
def jsSplit (sep : Char) (s : String) : List String :=
  jsSplitAux sep s.data []

/-- `Array.prototype.join('\n')`. -/
def joinNewline : List String → String
  | [] => ""
  | [s] => s
  | s :: rest => s ++ "\n" ++ joinNewline rest

/-- Helper for `collapseWhitespace`: the Bool records whether the previous
character was whitespace (so a run emits a single space). -/
def collapseWSAux : Bool → List Char → List Char
  | _, [] => []
  | prevWS, c :: cs =>
    if isJSWhitespace c then
      if prevWS then collapseWSAux true cs else ' ' :: collapseWSAux true cs
    else c :: collapseWSAux false cs

/- ======================================================================
   Data model (src/types/index.ts)
   ====================================================================== -/

/-- Judge verdict types. -/
inductive Verdict where
  | AC | WA | TLE | MLE | RE | CE | IE | PENDING | RUNNING | STOPPED
deriving DecidableEq

/-- Runtime-error subtype used in the structured `RE` field. -/
inductive RuntimeErrorSubtype where
  | SIGSEGV | SIGFPE | SIGABRT | UNKNOWN
deriving DecidableEq

/-- Comparison modes for output matching. -/
inductive ComparisonMode where
  | exact | trim | ignoreWhitespace
deriving DecidableEq

/-- Result of code execution (src/types/index.ts `ExecutionResult`). -/
structure ExecutionResult where
  stdout : String
  stderr : String
  exitCode : Int
  executionTimeMs : Nat
  timedOut : Bool
  aborted : Bool
  signal : Option String
deriving DecidableEq

/-- Test case with loaded input/output data. -/
structure TestCaseWithData where
  id : String
  input : String
  expected : String
deriving DecidableEq

/-- Result of judging a single test case; optional fields model the TS
record's absent properties. -/
structure JudgeResult where
  testCaseId : String
  verdict : Verdict
  executionTimeMs : Nat
  actualOutput : String
  expectedOutput : String
  errorMessage : Option String
  exitCode : Option Int
  signal : Option String
  runtimeErrorSubtype : Option RuntimeErrorSubtype
deriving DecidableEq

/-- Result of compilation (src/types/index.ts `CompileResult`). -/
structure CompileResult where
  success : Bool
  outputDir : Option String
  error : Option String
  compilationTimeMs : Nat
  cached : Option Bool
deriving DecidableEq

/- ======================================================================
   JudgeService output comparison (src/core/judge-service.ts)
   ====================================================================== -/

/-- `normalizeOutput`: trim each line's end and remove trailing blank lines. -/
def normalizeOutput (output : String) : String :=
  jsTrimEnd (joinNewline ((jsSplit '\n' output).map jsTrimEnd))

/-- `collapseWhitespace`: collapse every whitespace run to one space, trim. -/
def collapseWhitespace (output : String) : String :=
  jsTrim (String.mk (collapseWSAux false output.data))

/-- `compareOutput`: dispatch on the active comparison mode. -/
def compareOutput (mode : ComparisonMode) (actual expected : String) : Bool :=
  match mode with
  | .exact => actual == expected
  | .trim => normalizeOutput actual == normalizeOutput expected
  | .ignoreWhitespace => collapseWhitespace actual == collapseWhitespace expected

/- ======================================================================
   ExecutorService signal parsing and time limit (src/core/executor-service.ts)
   ====================================================================== -/

/-- `SIGNAL_NAMES` table: signal number to name. -/
def SIGNAL_NAMES (n : Int) : Option String :=
  if n = 11 then some "SIGSEGV"
  else if n = 8 then some "SIGFPE"
  else if n = 6 then some "SIGABRT"
  else if n = 9 then some "SIGKILL"
  else none

/-- `ExecutorService.parseSignal`: decode a signal name from an exit code. -/
def parseSignal (exitCode : Int) : Option String :=
  if exitCode > 128 then SIGNAL_NAMES (exitCode - 128)
  else if exitCode < 0 then SIGNAL_NAMES (-exitCode)
  else none

/-- `DEFAULT_TIME_LIMIT_MS`. -/
def DEFAULT_TIME_LIMIT_MS : Int := 2000

/-- Mutable state owned by one `ExecutorService` instance. -/
structure ExecutorState where
  timeLimitMs : Int
deriving DecidableEq

/-- The constructor: `this.timeLimitMs = timeLimitMs || DEFAULT_TIME_LIMIT_MS`
(JS `||` takes the default when the argument is absent or `0`). -/
def mkExecutorState (timeLimitMs : Option Int) : ExecutorState :=
  match timeLimitMs with
  | none => ⟨DEFAULT_TIME_LIMIT_MS⟩
  | some v => if v = 0 then ⟨DEFAULT_TIME_LIMIT_MS⟩ else ⟨v⟩

/-- `setTimeLimit` stores the argument unconditionally. -/
def setTimeLimit (_s : ExecutorState) (ms : Int) : ExecutorState := ⟨ms⟩

/-- `getTimeLimit` returns the stored value. -/
def getTimeLimit (s : ExecutorState) : Int := s.timeLimitMs

/- ======================================================================
   ExecutorService.runProcess (src/unnamed executor-service, "Case 2"):
   the pre-spawn abort check.  The effectful spawn is abstracted by the
   `oracleResult` the OS would deliver; the Nat counts processes spawned.
   ====================================================================== -/

/-- The result resolved immediately when the cancellation signal is already
triggered before the process spawns (no process created). -/
def abortedExecResult : ExecutionResult :=
  { stdout := "", stderr := "", exitCode := -1, executionTimeMs := 0,
    timedOut := false, aborted := true, signal := none }

/-- `runProcess`: if the abort signal (modelled by `Option Bool`, the
`aborted` flag of an optional `AbortSignal`) is already set, resolve with
`abortedExecResult` and spawn nothing; otherwise spawn one process whose
outcome is `oracleResult`. -/
def runProcess (signal : Option Bool) (oracleResult : ExecutionResult) :
    ExecutionResult × Nat :=
  if signal = some true then (abortedExecResult, 0) else (oracleResult, 1)

/- ======================================================================
   JudgeService verdict determination (src/core/judge-service.ts,
   src/core/index.ts).  `judgeTestCaseWith` is the body of `judgeTestCase`
   after the executor call, as a function of the execution result.
   ====================================================================== -/

/-- `mapSignalToSubtype`: map a parsed signal name to the structured field. -/
def mapSignalToSubtype (signal : Option String) : RuntimeErrorSubtype :=
  match signal with
  | none => .UNKNOWN
  | some s =>
    if s == "SIGSEGV" then .SIGSEGV
    else if s == "SIGFPE" then .SIGFPE
    else if s == "SIGABRT" then .SIGABRT
    else .UNKNOWN

/-- `judgeTestCase` after the executor resolved `er`: timeout beats exit code
beats output comparison. -/
def judgeTestCaseWith (mode : ComparisonMode) (er : ExecutionResult)
    (tc : TestCaseWithData) : JudgeResult :=
  if er.timedOut then
    { testCaseId := tc.id, verdict := .TLE,
      executionTimeMs := er.executionTimeMs,
      actualOutput := er.stdout, expectedOutput := tc.expected,
      errorMessage := none, exitCode := none, signal := none,
      runtimeErrorSubtype := none }
  else if er.exitCode ≠ 0 then
    let sig := parseSignal er.exitCode
    { testCaseId := tc.id, verdict := .RE,
      executionTimeMs := er.executionTimeMs,
      actualOutput := er.stdout, expectedOutput := tc.expected,
      errorMessage := some (if er.stderr == "" then
        "Process exited with code " ++ toString er.exitCode else er.stderr),
      exitCode := some er.exitCode, signal := sig,
      runtimeErrorSubtype := some (mapSignalToSubtype sig) }
  else
    { testCaseId := tc.id,
      verdict := if compareOutput mode er.stdout tc.expected then .AC else .WA,
      executionTimeMs := er.executionTimeMs,
      actualOutput := er.stdout, expectedOutput := tc.expected,
      errorMessage := none, exitCode := none, signal := none,
      runtimeErrorSubtype := none }

/-- The CE result `judgeAll` builds for one test case when compilation
failed. -/
def ceResult (cr : CompileResult) (tc : TestCaseWithData) : JudgeResult :=
  { testCaseId := tc.id, verdict := .CE, executionTimeMs := 0,
    actualOutput := "", expectedOutput := tc.expected,
    errorMessage := cr.error, exitCode := none, signal := none,
    runtimeErrorSubtype := none }

/-- `judgeAll` after the compile step resolved `cr`: on compile failure every
test case becomes `ceResult` and no execution happens; otherwise each test
case is executed through `runProcess` (under the shared cancellation signal)
and judged.  The Nat is the total number of processes spawned. -/
def judgeAllWith (mode : ComparisonMode) (cr : CompileResult)
    (execOracle : TestCaseWithData → ExecutionResult) (signal : Option Bool)
    (tcs : List TestCaseWithData) : List JudgeResult × Nat :=
  if cr.success = false then
    (tcs.map (ceResult cr), 0)
  else
    (tcs.map (fun tc => judgeTestCaseWith mode (runProcess signal (execOracle tc)).1 tc),
     (tcs.map (fun tc => (runProcess signal (execOracle tc)).2)).sum)

/- ======================================================================
   Cross-platform signal parser (src/README.md reference implementation):
   Unix 128+signal / negative-code decoding and Windows NTSTATUS lookup.
   ====================================================================== -/

/-- Signal name plus human description. -/
structure SignalInfo where
  signal : String
  description : String
deriving DecidableEq

/-- `UNIX_SIGNALS` table (exit code = 128 + signal number). -/
def UNIX_SIGNALS (n : Int) : Option SignalInfo :=
  if n = 4 then some ⟨"SIGILL", "Illegal instruction"⟩
  else if n = 6 then some ⟨"SIGABRT", "Aborted (assertion failure or abort() called)"⟩
  else if n = 7 then some ⟨"SIGBUS", "Bus error (misaligned memory access)"⟩
  else if n = 8 then some ⟨"SIGFPE", "Floating point exception (division by zero)"⟩
  else if n = 9 then some ⟨"SIGKILL", "Process killed (OOM or forced)"⟩
  else if n = 11 then some ⟨"SIGSEGV", "Segmentation fault (invalid memory access)"⟩
  else if n = 13 then some ⟨"SIGPIPE", "Broken pipe"⟩
  else if n = 25 then some ⟨"SIGXFSZ", "File size limit exceeded"⟩
  else none

/-- `WINDOWS_STATUS_CODES` table (unsigned 32-bit NTSTATUS exception codes). -/
def WINDOWS_STATUS_CODES (n : Int) : Option SignalInfo :=
  if n = 0xC0000005 then some ⟨"ACCESS_VIOLATION", "Segmentation fault (invalid memory access)"⟩
  else if n = 0xC000001D then some ⟨"ILLEGAL_INSTRUCTION", "Illegal instruction"⟩
  else if n = 0xC0000094 then some ⟨"INTEGER_DIVIDE_BY_ZERO", "Division by zero"⟩
  else if n = 0xC00000FD then some ⟨"STACK_OVERFLOW", "Stack overflow (deep recursion)"⟩
  else if n = 0xC0000374 then some ⟨"HEAP_CORRUPTION", "Heap corruption (buffer overflow on heap)"⟩
  else if n = 0xC0000409 then some ⟨"STACK_BUFFER_OVERRUN", "Stack buffer overflow detected"⟩
  else if n = 0x40010005 then some ⟨"CONTROL_C_EXIT", "Process terminated (Ctrl+C or killed)"⟩
  else if n = 3 then some ⟨"ABORT", "Aborted (CRT assertion failure)"⟩
  else none

/-- `parseUnixExitCode`: Unix convention, 128 + signal number or negation. -/
def parseUnixExitCode (exitCode : Int) : Option SignalInfo :=
  if exitCode > 128 then UNIX_SIGNALS (exitCode - 128)
  else if exitCode < 0 then UNIX_SIGNALS (-exitCode)
  else none

/-- `parseWindowsExitCode`: reconstruct the unsigned 32-bit NTSTATUS value and
look it up. -/
def parseWindowsExitCode (exitCode : Int) : Option SignalInfo :=
  WINDOWS_STATUS_CODES (if exitCode < 0 then exitCode + 4294967296 else exitCode)

/- ======================================================================
   Node `path` semantics for the simple separator-joined paths the judge
   builds (no `.`/`..` normalization is exercised by the repository).
   `win32` selects the platform flavour (`process.platform === 'win32'`).
   ====================================================================== -/

/-- Is `c` a path separator on the given platform? -/
def isPathSep (win32 : Bool) (c : Char) : Bool :=
  c == '/' || (win32 && c == '\x5c')

/-- Helper splitting a character list at separators. -/
def splitPathAux (win32 : Bool) : List Char → List Char → List String
  | [], acc => [String.mk acc.reverse]
  | c :: cs, acc =>
    if isPathSep win32 c then String.mk acc.reverse :: splitPathAux win32 cs []
    else splitPathAux win32 cs (c :: acc)

/-- `path.basename`: the last nonempty path component. -/
def basenameOf (win32 : Bool) (p : String) : String :=
  ((splitPathAux win32 p.data []).filter (fun s => !(s == ""))).getLastD ""

/-- The extension part of a basename: from the last `'.'` to the end, empty
when there is no dot or the only dot is the leading character. -/
def extnameData (b : List Char) : List Char :=
  let r := b.reverse
  let k := (r.takeWhile (fun c => !(c == '.'))).length
  if k ≥ r.length then []
  else if k = r.length - 1 then []
  else '.' :: (r.take k).reverse

/-- `path.extname`. -/
def extname (win32 : Bool) (p : String) : String :=
  String.mk (extnameData (basenameOf win32 p).data)

/-- `path.parse(p).name`: the basename with its extension removed. -/
def parseName (win32 : Bool) (p : String) : String :=
  let b := (basenameOf win32 p).data
  String.mk (b.take (b.length - (extnameData b).length))

/-- `path.join` restricted to the two-segment calls the code makes. -/
def pathJoin (win32 : Bool) (a b : String) : String :=
  let sep : Char := if win32 then '\x5c' else '/'
  if a == "" then b
  else if a.data.getLastD sep == sep then a ++ b
  else a ++ String.mk [sep] ++ b

/-- `str.toLowerCase()` (ASCII; the registry's extensions are ASCII). -/
def strToLower (s : String) : String :=
  String.mk (s.data.map Char.toLower)

/- ======================================================================
   String.prototype.replace(/pat/g, rep) with a literal pattern: left to
   right, non-overlapping, the replacement is not rescanned.  The Nat fuel
   equals the scanned list's length, so it never runs out.
   ====================================================================== -/

/-- Is `pat` a contiguous sub-list of `l`? -/
def hasSub (pat : List Char) : List Char → Bool
  | [] => pat.isEmpty
  | c :: cs => pat.isPrefixOf (c :: cs) || hasSub pat cs

/-- Scanner for `replaceAll`. -/
def replaceAllAux (pat rep : List Char) : Nat → List Char → List Char
  | _, [] => []
  | 0, l => l
  | Nat.succ fuel, c :: cs =>
    if !pat.isEmpty && pat.isPrefixOf (c :: cs) then
      rep ++ replaceAllAux pat rep fuel (List.drop pat.length (c :: cs))
    else c :: replaceAllAux pat rep fuel cs

/-- `s.replace(/pat/g, rep)` for a literal pattern `pat`. -/
def replaceAll (s pat rep : String) : String :=
  String.mk (replaceAllAux pat.data rep.data s.data.length s.data)

/- ======================================================================
   Language registry (src/core/language-registry.ts).  A configured value
   read from settings may lack a field at runtime, so the optional fields
   are `Option`; the TS truthiness checks are modelled field by field.
   ====================================================================== -/

/-- `LanguageConfig` as read from configuration; `name` is `""` when absent
(both are falsy), list-valued fields keep absence distinct from emptiness. -/
structure LanguageConfig where
  name : String
  extensions : Option (List String)
  compileArgs : Option (List String)
  runArgs : Option (List String)
  outputExtension : Option String
deriving DecidableEq

/-- `CustomLanguageProvider` after construction. -/
structure CustomLanguageProvider where
  id : String
  name : String
  extensions : List String
  compileArgs : Option (List String)
  runArgs : List String
  outputExtension : Option String
deriving DecidableEq

/-- The `CustomLanguageProvider` constructor: extensions are lowercased (and
nothing else); the registry only calls it on validated configs, so the
`getD` defaults are never exercised there. -/
def mkCustomLanguageProvider (id : String) (config : LanguageConfig) :
    CustomLanguageProvider :=
  { id := id, name := config.name,
    extensions := (config.extensions.getD []).map strToLower,
    compileArgs := config.compileArgs,
    runArgs := config.runArgs.getD [],
    outputExtension := config.outputExtension }

/-- The `loadFromConfiguration` validity test:
`!langConfig.name || !langConfig.extensions || !langConfig.runArgs ||
langConfig.runArgs.length === 0` skips the entry.  Note a present-but-empty
`extensions` array is truthy in JS and therefore accepted. -/
def configValid (cfg : LanguageConfig) : Bool :=
  !(cfg.name == "") && cfg.extensions.isSome && cfg.runArgs.isSome &&
    !(cfg.runArgs == some [])

/-- `LanguageRegistry.loadFromConfiguration` over the configured language
map; `Object.entries` of a `Record` yields unique keys, so the `Map.set`
inserts are modelled as appends.  Invalid entries are skipped (warned). -/
def loadFromConfiguration (langs : List (String × LanguageConfig)) :
    List (String × CustomLanguageProvider) :=
  langs.filterMap (fun idCfg =>
    if configValid idCfg.2 then
      some (idCfg.1, mkCustomLanguageProvider idCfg.1 idCfg.2)
    else none)

/-- `LanguageRegistry.getProvider`: lookup by exact id. -/
def getProvider (providers : List (String × CustomLanguageProvider))
    (id : String) : Option CustomLanguageProvider :=
  (providers.find? (fun kv => kv.1 == id)).map (·.2)

/-- `LanguageRegistry.detectProvider`: lowercase extension scan in
registration order. -/
def detectProvider (win32 : Bool)
    (providers : List (String × CustomLanguageProvider)) (filePath : String) :
    Option CustomLanguageProvider :=
  let ext := strToLower (extname win32 filePath)
  ((providers.map (·.2)).find? (fun p => p.extensions.contains ext))

/-- `CustomLanguageProvider.interpolateVariables`: literal global replacement
of the four placeholder tokens; note the executable-file token always uses
the platform binary extension, not `outputExtension`. -/
def interpolateVariables (win32 : Bool) (s sourcePath outputDir : String) :
    String :=
  let className := parseName win32 sourcePath
  let binaryExt : String := if win32 then ".exe" else ""
  let executableFile := pathJoin win32 outputDir (className ++ binaryExt)
  replaceAll (replaceAll (replaceAll (replaceAll s
    "${sourceFile}" sourcePath)
    "${outputDir}" outputDir)
    "${executableFile}" executableFile)
    "${className}" className

/-- `CustomLanguageProvider.getCompileCommand`: `null` without compile args;
otherwise interpolate every template token and shift the first off as the
command. -/
def getCompileCommand (win32 : Bool) (p : CustomLanguageProvider)
    (sourcePath outputDir : String) : Option (String × List String) :=
  match p.compileArgs with
  | none => none
  | some [] => none
  | some (a :: rest) =>
    some (interpolateVariables win32 a sourcePath outputDir,
          rest.map (fun s => interpolateVariables win32 s sourcePath outputDir))

/-- `CustomLanguageProvider.getRunCommand`: same interpolation over the run
template. -/
def getRunCommand (win32 : Bool) (p : CustomLanguageProvider)
    (sourcePath outputDir : String) : Option (String × List String) :=
  match p.runArgs with
  | [] => none
  | a :: rest =>
    some (interpolateVariables win32 a sourcePath outputDir,
          rest.map (fun s => interpolateVariables win32 s sourcePath outputDir))

/-- `CustomLanguageProvider.getExecutablePath`: `undefined` for interpreted
languages; otherwise `outputDir/<name><outputExtension or platform default>`. -/
def getExecutablePath (win32 : Bool) (p : CustomLanguageProvider)
    (sourcePath outputDir : String) : Option String :=
  if p.compileArgs = none ∨ p.compileArgs = some [] then none
  else
    let fileNameWithoutExt := parseName win32 sourcePath
    let ext := p.outputExtension.getD (if win32 then ".exe" else "")
    some (pathJoin win32 outputDir (fileNameWithoutExt ++ ext))

/- ======================================================================
   CompilerService with compilation cache (src/unnamed compiler-service,
   registry-based version).  The filesystem is an association list from
   path to contents; MD5 is abstracted as the `hashFn` parameter (any
   function of the source text); the compiler process's behaviour is the
   `CompilerRun` oracle, and a successful compile writes the artifact.
   ====================================================================== -/

/-- Cache entry for compiled files. -/
structure CacheEntry where
  contentHash : String
  outputDir : String
  executablePath : Option String
  compiledAt : Nat
deriving DecidableEq

/-- Association-list `get` (JS `Map.get`). -/
def assocGet {α : Type} : List (String × α) → String → Option α
  | [], _ => none
  | kv :: rest, k => if kv.1 == k then some kv.2 else assocGet rest k

/-- Association-list `set` (JS `Map.set`: overwrite in place or append). -/
def assocSet {α : Type} (l : List (String × α)) (k : String) (v : α) :
    List (String × α) :=
  match l with
  | [] => [(k, v)]
  | kv :: rest =>
    if kv.1 == k then (k, v) :: rest else kv :: assocSet rest k v

/-- Association-list `delete` (JS `Map.delete`; keys are unique, so removing
every match coincides with removing the entry). -/
def assocDelete {α : Type} : List (String × α) → String → List (String × α)
  | [], _ => []
  | kv :: rest, k =>
    if kv.1 == k then assocDelete rest k else kv :: assocDelete rest k

/-- Filesystem model: path to file contents; presence models `fs.access`. -/
abbrev FSModel : Type := List (String × String)

/-- `fs.readFile`. -/
def fsRead (fs : FSModel) (p : String) : Option String := assocGet fs p

/-- `fs.access` (does the path exist?). -/
def fsExists (fs : FSModel) (p : String) : Bool := (assocGet fs p).isSome

/-- Create or overwrite a file. -/
def fsWrite (fs : FSModel) (p : String) (contents : String) : FSModel :=
  assocSet fs p contents

/-- Delete a file. -/
def fsDelete (fs : FSModel) (p : String) : FSModel := assocDelete fs p

/-- Behaviour of one spawned compiler process: either it exited with a code
and captured output, or the spawn itself failed (`error` event). -/
inductive CompilerRun where
  | exited (code : Int) (stdoutText stderrText : String)
  | spawnFailed (msg : String)
deriving DecidableEq

/-- Everything `CompilerService.compile` produces: the result, the new cache,
the new filesystem, and how many compiler processes were spawned. -/
structure CompileOut where
  result : CompileResult
  cache : List (String × CacheEntry)
  fs : FSModel
  compilerCalls : Nat
deriving DecidableEq

/-- `CompilerService.runCompiler`: success iff the process exits 0; a spawn
failure is the distinct "Compiler not found" path; a non-zero exit reports
`stderr || stdout || generic message`. -/
def runCompilerModel (command outputDir : String) (run : CompilerRun) :
    CompileResult :=
  match run with
  | .spawnFailed msg =>
    { success := false, outputDir := none,
      error := some ("Compiler not found: " ++ command ++ ". " ++ msg),
      compilationTimeMs := 0, cached := none }
  | .exited code so se =>
    if code = 0 then
      { success := true, outputDir := some outputDir, error := none,
        compilationTimeMs := 0, cached := none }
    else
      { success := false, outputDir := none,
        error := some (if !(se == "") then se
          else if !(so == "") then so
          else "Compilation failed with exit code " ++ toString code),
        compilationTimeMs := 0, cached := none }

/-- `CompilerService.recompile`: run the compiler; on success record the new
cache entry (content hash, output dir, resolved executable path, timestamp)
and the compiler's artifact appears on disk; `cached` is `false`. -/
def recompileModel (win32 : Bool)
    (p : CustomLanguageProvider) (cache : List (String × CacheEntry))
    (fs : FSModel) (run : CompilerRun) (now : Nat)
    (outputDir sourcePath hash : String) : CompileOut :=
  match getCompileCommand win32 p sourcePath outputDir with
  | none =>
    let res : CompileResult :=
      { success := false, outputDir := none,
        error := some "No compile command", compilationTimeMs := 0,
        cached := none }
    { result := res, cache := cache, fs := fs, compilerCalls := 0 }
  | some cmd =>
    let res := runCompilerModel cmd.1 outputDir run
    if res.success then
      let ep := getExecutablePath win32 p sourcePath outputDir
      { result := { res with cached := some false },
        cache := assocSet cache sourcePath
          { contentHash := hash, outputDir := outputDir,
            executablePath := ep, compiledAt := now },
        fs := match ep with
          | some e => fsWrite fs e ""
          | none => fs,
        compilerCalls := 1 }
    else
      { result := { res with cached := some false },
        cache := cache, fs := fs, compilerCalls := 1 }

/-- `CompilerService.compile`: detect the language, short-circuit interpreted
languages, read and hash the source, honour a cache entry only when the hash
matches and the recorded artifact (when present) still exists, otherwise
invalidate and recompile. -/
def compileModel (win32 : Bool) (hashFn : String → String)
    (providers : List (String × CustomLanguageProvider))
    (cache : List (String × CacheEntry)) (fs : FSModel) (run : CompilerRun)
    (now : Nat) (outputDir sourcePath : String) : CompileOut :=
  match detectProvider win32 providers sourcePath with
  | none =>
    let res : CompileResult :=
      { success := false, outputDir := none,
        error := some ("Unsupported file type: " ++ extname win32 sourcePath),
        compilationTimeMs := 0, cached := none }
    { result := res, cache := cache, fs := fs, compilerCalls := 0 }
  | some p =>
    match getCompileCommand win32 p sourcePath outputDir with
    | none =>
      let res : CompileResult :=
        { success := true, outputDir := some outputDir,
          error := none, compilationTimeMs := 0, cached := some true }
      { result := res, cache := cache, fs := fs, compilerCalls := 0 }
    | some _ =>
      match fsRead fs sourcePath with
      | none =>
        let res : CompileResult :=
          { success := false, outputDir := none,
            error := some ("Cannot read source file: " ++ sourcePath),
            compilationTimeMs := 0, cached := none }
        { result := res, cache := cache, fs := fs, compilerCalls := 0 }
      | some content =>
        let hash := hashFn content
        match assocGet cache sourcePath with
        | some entry =>
          if entry.contentHash == hash then
            match entry.executablePath with
            | some ep =>
              if fsExists fs ep then
                let res : CompileResult :=
                  { success := true, outputDir := some entry.outputDir,
                    error := none, compilationTimeMs := 0,
                    cached := some true }
                { result := res, cache := cache, fs := fs,
                  compilerCalls := 0 }
              else
                recompileModel win32 p (assocDelete cache sourcePath)
                  fs run now outputDir sourcePath hash
            | none =>
              let res : CompileResult :=
                { success := true, outputDir := some entry.outputDir,
                  error := none, compilationTimeMs := 0, cached := some true }
              { result := res, cache := cache, fs := fs, compilerCalls := 0 }
          else
            recompileModel win32 p cache fs run now outputDir
              sourcePath hash
        | none =>
          recompileModel win32 p cache fs run now outputDir
            sourcePath hash

/- ======================================================================
   Concrete instances used to exhibit the cache scenario of the claims:
   a C++-style compiled language, a one-file filesystem, and the three
   successive compiles (fresh, unchanged, after artifact deletion).
   ====================================================================== -/

/-- A configured C++-style compiled language (no output-extension override). -/
def cppProviderC : CustomLanguageProvider :=
  { id := "cpp", name := "C++", extensions := [".cpp"],
    compileArgs := some ["g++", "${sourceFile}", "-o", "${executableFile}"],
    runArgs := ["${executableFile}"], outputExtension := none }

/-- Registry holding just the C++-style provider. -/
def regC : List (String × CustomLanguageProvider) := [("cpp", cppProviderC)]

/-- Filesystem holding one source file. -/
def fsC : FSModel := [("/src/main.cpp", "int main(){}")]

/-- First compile: fresh cache, compiler exits 0. -/
def compileOut1 : CompileOut :=
  compileModel false id regC [] fsC (CompilerRun.exited 0 "" "") 5 "/out"
    "/src/main.cpp"

/-- Second compile: unchanged source, prior cache and filesystem. -/
def compileOut2 : CompileOut :=
  compileModel false id regC compileOut1.cache compileOut1.fs
    (CompilerRun.exited 0 "" "") 6 "/out" "/src/main.cpp"

/-- Third compile: the recorded artifact was deleted in between. -/
def compileOut3 : CompileOut :=
  compileModel false id regC compileOut1.cache (fsDelete compileOut1.fs "/out/main")
    (CompilerRun.exited 0 "" "") 7 "/out" "/src/main.cpp"

/- ======================================================================
   Helper lemmas (association lists, literal replacement)
   ====================================================================== -/

theorem assocGet_set_self {α : Type} (l : List (String × α)) (k : String)
    (v : α) : assocGet (assocSet l k v) k = some v := by
  induction l with
  | nil => simp [assocSet, assocGet]
  | cons kv rest ih =>
    by_cases h : kv.1 = k
    · simp [assocSet, assocGet, h]
    · simp [assocSet, assocGet, h, ih]

theorem assocGet_set_ne {α : Type} (l : List (String × α)) (k k' : String)
    (v : α) (h : k' ≠ k) : assocGet (assocSet l k v) k' = assocGet l k' := by
  have hkk : ¬ k = k' := fun hh => h hh.symm
  induction l with
  | nil => simp [assocSet, assocGet, hkk]
  | cons kv rest ih =>
    by_cases hk : kv.1 = k
    · simp [assocSet, assocGet, hk, hkk]
    · by_cases hk' : kv.1 = k'
      · simp [assocSet, assocGet, hk, hk', h]
      · simp [assocSet, assocGet, hk, hk', ih]

theorem assocGet_delete_self {α : Type} (l : List (String × α)) (k : String) :
    assocGet (assocDelete l k) k = none := by
  induction l with
  | nil => simp [assocDelete, assocGet]
  | cons kv rest ih =>
    by_cases h : kv.1 = k
    · simpa [assocDelete, assocGet, h] using ih
    · simpa [assocDelete, assocGet, h] using ih

theorem assocGet_delete_ne {α : Type} (l : List (String × α)) (k k' : String)
    (h : k' ≠ k) : assocGet (assocDelete l k) k' = assocGet l k' := by
  have hkk : ¬ k = k' := fun hh => h hh.symm
  induction l with
  | nil => simp [assocDelete, assocGet]
  | cons kv rest ih =>
    by_cases hk : kv.1 = k
    · simpa [assocDelete, assocGet, hk, hkk] using ih
    · by_cases hk' : kv.1 = k'
      · simp [assocDelete, assocGet, hk, hk', h]
      · simpa [assocDelete, assocGet, hk, hk'] using ih

theorem replaceAllAux_of_hasSub_false (pat rep : List Char) :
    ∀ (l : List Char) (fuel : Nat), hasSub pat l = false →
      replaceAllAux pat rep fuel l = l := by
  intro l
  induction l with
  | nil => intro fuel _; cases fuel <;> rfl
  | cons c cs ih =>
    intro fuel h
    cases fuel with
    | zero => rfl
    | succ f =>
      simp only [hasSub, Bool.or_eq_false_iff] at h
      obtain ⟨h1, h2⟩ := h
      simp [replaceAllAux, h1, ih f h2]

theorem replaceAll_of_hasSub_false (s pat rep : String)
    (h : hasSub pat.data s.data = false) : replaceAll s pat rep = s := by
  unfold replaceAll
  rw [replaceAllAux_of_hasSub_false _ _ _ _ h]

theorem replaceAll_execFile_token (rep : String) :
    replaceAll "${executableFile}" "${executableFile}" rep = rep := by
  have h : replaceAllAux "${executableFile}".data rep.data
      "${executableFile}".data.length "${executableFile}".data =
      rep.data ++ ([] : List Char) := rfl
  calc replaceAll "${executableFile}" "${executableFile}" rep
      = String.mk (rep.data ++ []) := congrArg String.mk h
    _ = String.mk rep.data := by rw [List.append_nil]
    _ = rep := rfl

/- ======================================================================
   Claim theorems
   ====================================================================== -/

/-- C1: whenever the execution result reports `timedOut`, `judgeTestCase`
returns verdict `TLE` (so never `AC`, `WA` or `RE`), regardless of exit code
or captured output, and the result's `actualOutput` is the stdout captured
before the kill. -/
theorem C1_timeout_always_tle (mode : ComparisonMode) (er : ExecutionResult)
    (tc : TestCaseWithData) (h : er.timedOut = true) :
    (judgeTestCaseWith mode er tc).verdict = Verdict.TLE ∧
    (judgeTestCaseWith mode er tc).actualOutput = er.stdout := by
  simp [judgeTestCaseWith, h]

theorem C1_timeout_always_tle_witness :
    (judgeTestCaseWith ComparisonMode.trim
      ⟨"partial output", "", 137, 1500, true, false, none⟩
      ⟨"t1", "5", "25"⟩).verdict = Verdict.TLE ∧
    (judgeTestCaseWith ComparisonMode.trim
      ⟨"partial output", "", 137, 1500, true, false, none⟩
      ⟨"t1", "5", "25"⟩).actualOutput = "partial output" :=
  C1_timeout_always_tle ComparisonMode.trim
    ⟨"partial output", "", 137, 1500, true, false, none⟩ ⟨"t1", "5", "25"⟩ rfl

/-- C3: `compareOutput` is reflexive under every comparison mode; under
`trim`, `"42"` matches `"42  \n"` and `"hello\nworld"` matches
`"hello\nworld\n\n"`; under `exact`, `"42"` does not match `"42 "`. -/
theorem C3_compare_reflexive_and_examples :
    (∀ (mode : ComparisonMode) (x : String), compareOutput mode x x = true) ∧
    compareOutput ComparisonMode.trim "42" "42  \n" = true ∧
    compareOutput ComparisonMode.trim "hello\nworld" "hello\nworld\n\n" = true ∧
    compareOutput ComparisonMode.exact "42" "42 " = false := by
  refine ⟨fun mode x => ?_, by decide, by decide, by decide⟩
  cases mode <;> simp [compareOutput]

/-- C7: a POSIX-style exit code 139 yields verdict `RE`, signal `SIGSEGV`,
runtime-error subtype `SIGSEGV`, preserved `exitCode = 139`, and an error
message taken from captured stderr with the "Process exited with code 139"
fallback. -/
theorem C7_exit139_sigsegv (mode : ComparisonMode) (er : ExecutionResult)
    (tc : TestCaseWithData) (h1 : er.timedOut = false)
    (h2 : er.exitCode = 139) :
    (judgeTestCaseWith mode er tc).verdict = Verdict.RE ∧
    (judgeTestCaseWith mode er tc).signal = some "SIGSEGV" ∧
    (judgeTestCaseWith mode er tc).runtimeErrorSubtype =
      some RuntimeErrorSubtype.SIGSEGV ∧
    (judgeTestCaseWith mode er tc).exitCode = some 139 ∧
    (judgeTestCaseWith mode er tc).errorMessage =
      some (if er.stderr == "" then "Process exited with code 139"
        else er.stderr) := by
  have hps : parseSignal 139 = some "SIGSEGV" := by decide
  have hts : toString (139 : Int) = "139" := by decide
  simp [judgeTestCaseWith, h1, h2, hps, hts, mapSignalToSubtype]

theorem C7_exit139_sigsegv_witness :
    (judgeTestCaseWith ComparisonMode.trim
      ⟨"", "segfault", 139, 42, false, false, none⟩
      ⟨"t2", "1", "1"⟩).verdict = Verdict.RE ∧
    (judgeTestCaseWith ComparisonMode.trim
      ⟨"", "segfault", 139, 42, false, false, none⟩
      ⟨"t2", "1", "1"⟩).signal = some "SIGSEGV" ∧
    (judgeTestCaseWith ComparisonMode.trim
      ⟨"", "segfault", 139, 42, false, false, none⟩
      ⟨"t2", "1", "1"⟩).runtimeErrorSubtype =
      some RuntimeErrorSubtype.SIGSEGV ∧
    (judgeTestCaseWith ComparisonMode.trim
      ⟨"", "segfault", 139, 42, false, false, none⟩
      ⟨"t2", "1", "1"⟩).exitCode = some 139 ∧
    (judgeTestCaseWith ComparisonMode.trim
      ⟨"", "segfault", 139, 42, false, false, none⟩
      ⟨"t2", "1", "1"⟩).errorMessage =
      some (if ("segfault" : String) == "" then "Process exited with code 139"
        else "segfault") :=
  C7_exit139_sigsegv ComparisonMode.trim
    ⟨"", "segfault", 139, 42, false, false, none⟩ ⟨"t2", "1", "1"⟩ rfl rfl

/-- C10: constructing the executor with an absent or zero time limit falls
back to the 2000 ms default, `setTimeLimit 0` stores `0`, and any nonzero
constructor argument or any `setTimeLimit` argument is stored exactly. -/
theorem C10_time_limit (s : ExecutorState) (ms : Int) (h : ms ≠ 0) :
    getTimeLimit (mkExecutorState none) = 2000 ∧
    getTimeLimit (mkExecutorState (some 0)) = 2000 ∧
    getTimeLimit (setTimeLimit s 0) = 0 ∧
    getTimeLimit (mkExecutorState (some ms)) = ms ∧
    ∀ t : Int, getTimeLimit (setTimeLimit s t) = t := by
  refine ⟨rfl, rfl, rfl, ?_, fun t => rfl⟩
  simp [mkExecutorState, getTimeLimit, h]

theorem C10_time_limit_witness :
    getTimeLimit (mkExecutorState none) = 2000 ∧
    getTimeLimit (mkExecutorState (some 0)) = 2000 ∧
    getTimeLimit (setTimeLimit ⟨2000⟩ 0) = 0 ∧
    getTimeLimit (mkExecutorState (some 500)) = 500 ∧
    ∀ t : Int, getTimeLimit (setTimeLimit ⟨2000⟩ t) = t :=
  C10_time_limit ⟨2000⟩ 500 (by decide)

/-- C2: when compilation fails, `judgeAll` returns exactly one result per
test case, in input order, each with verdict `CE`, zero execution time, the
compiler's error text as the shared `errorMessage`, and the executor spawns
no process at all. -/
theorem C2_compile_failure_all_ce (mode : ComparisonMode) (cr : CompileResult)
    (exec : TestCaseWithData → ExecutionResult) (signal : Option Bool)
    (tcs : List TestCaseWithData) (h : cr.success = false) :
    (judgeAllWith mode cr exec signal tcs).2 = 0 ∧
    (judgeAllWith mode cr exec signal tcs).1.length = tcs.length ∧
    (judgeAllWith mode cr exec signal tcs).1.map (fun r => r.testCaseId) =
      tcs.map (fun tc => tc.id) ∧
    ∀ r ∈ (judgeAllWith mode cr exec signal tcs).1,
      r.verdict = Verdict.CE ∧ r.executionTimeMs = 0 ∧
      r.errorMessage = cr.error ∧ r.actualOutput = "" := by
  refine ⟨by simp [judgeAllWith, h], by simp [judgeAllWith, h],
    by simp [judgeAllWith, h, ceResult], ?_⟩
  intro r hr
  simp only [judgeAllWith, h, if_pos] at hr
  simp only [List.mem_map] at hr
  obtain ⟨tc, _, rfl⟩ := hr
  exact ⟨rfl, rfl, rfl, rfl⟩

theorem C2_compile_failure_all_ce_witness :
    (judgeAllWith ComparisonMode.trim ⟨false, none, some "main.cpp:1: error", 3, none⟩
      (fun _ => abortedExecResult) none
      [⟨"a", "1", "2"⟩, ⟨"b", "3", "4"⟩]).2 = 0 ∧
    (judgeAllWith ComparisonMode.trim ⟨false, none, some "main.cpp:1: error", 3, none⟩
      (fun _ => abortedExecResult) none
      [⟨"a", "1", "2"⟩, ⟨"b", "3", "4"⟩]).1.length = 2 ∧
    (judgeAllWith ComparisonMode.trim ⟨false, none, some "main.cpp:1: error", 3, none⟩
      (fun _ => abortedExecResult) none
      [⟨"a", "1", "2"⟩, ⟨"b", "3", "4"⟩]).1.map (fun r => r.testCaseId) =
      ["a", "b"] ∧
    ∀ r ∈ (judgeAllWith ComparisonMode.trim
        ⟨false, none, some "main.cpp:1: error", 3, none⟩
        (fun _ => abortedExecResult) none
        [⟨"a", "1", "2"⟩, ⟨"b", "3", "4"⟩]).1,
      r.verdict = Verdict.CE ∧ r.executionTimeMs = 0 ∧
      r.errorMessage = some "main.cpp:1: error" ∧ r.actualOutput = "" :=
  C2_compile_failure_all_ce ComparisonMode.trim
    ⟨false, none, some "main.cpp:1: error", 3, none⟩
    (fun _ => abortedExecResult) none
    [⟨"a", "1", "2"⟩, ⟨"b", "3", "4"⟩] rfl

/-- C6: the signal interpreter decodes exit codes above 128 as signal
`code - 128` and negative codes as signal `-code` (both in `parseSignal` and
the cross-platform `parseUnixExitCode`); the Windows parser reconstructs a
negative code as the unsigned value `code + 2^32` before the NTSTATUS table
lookup; and with no stderr and no table match the judge's reported error
message falls back to `"Process exited with code {code}"`. -/
theorem C6_signal_decoding (c : Int) :
    (c > 128 → parseSignal c = SIGNAL_NAMES (c - 128) ∧
      parseUnixExitCode c = UNIX_SIGNALS (c - 128)) ∧
    (c < 0 → parseSignal c = SIGNAL_NAMES (-c) ∧
      parseUnixExitCode c = UNIX_SIGNALS (-c)) ∧
    (c < 0 → parseWindowsExitCode c = WINDOWS_STATUS_CODES (c + 2 ^ 32)) ∧
    (∀ (mode : ComparisonMode) (er : ExecutionResult) (tc : TestCaseWithData),
      er.timedOut = false → er.exitCode = c → c ≠ 0 → er.stderr = "" →
      parseSignal c = none →
      (judgeTestCaseWith mode er tc).errorMessage =
        some ("Process exited with code " ++ toString c)) := by
  refine ⟨fun h => ?_, fun h => ?_, fun h => ?_, ?_⟩
  · constructor <;> simp [parseSignal, parseUnixExitCode, h]
  · have h' : ¬ c > 128 := by omega
    constructor <;> simp [parseSignal, parseUnixExitCode, h, h']
  · simp only [parseWindowsExitCode, if_pos h]
    norm_num
  · intro mode er tc ht hc hnz hse _
    simp [judgeTestCaseWith, ht, hc, hnz, hse]

theorem C6_signal_decoding_witness :
    (parseSignal 139 = SIGNAL_NAMES 11 ∧
      parseUnixExitCode 139 = UNIX_SIGNALS 11) ∧
    (parseSignal (-6) = SIGNAL_NAMES 6 ∧
      parseUnixExitCode (-6) = UNIX_SIGNALS 6) ∧
    (parseWindowsExitCode (-1073741819) =
      WINDOWS_STATUS_CODES ((-1073741819) + 2 ^ 32)) ∧
    (judgeTestCaseWith ComparisonMode.trim ⟨"", "", 5, 10, false, false, none⟩
      ⟨"t3", "", ""⟩).errorMessage =
      some ("Process exited with code " ++ toString (5 : Int)) :=
  ⟨(C6_signal_decoding 139).1 (by decide),
   (C6_signal_decoding (-6)).2.1 (by decide),
   (C6_signal_decoding (-1073741819)).2.2.1 (by decide),
   (C6_signal_decoding 5).2.2.2 ComparisonMode.trim
     ⟨"", "", 5, 10, false, false, none⟩ ⟨"t3", "", ""⟩ rfl rfl (by decide)
     rfl (by decide)⟩

/-- C5 (amended): a pre-triggered cancellation signal makes the executor
resolve immediately with `aborted = true`, zero elapsed time, empty output
and no process spawned, and a batch cancelled before any test starts spawns
zero processes with every underlying execution result aborted; at the
executor level these results carry `timedOut = false`, distinguishing them
from timeouts and crashes, but the judge classifies them through the `-1`
exit-code sentinel as verdict `RE` rather than a distinct verdict. -/
theorem C5_preabort_behavior (mode : ComparisonMode) (cr : CompileResult)
    (exec : TestCaseWithData → ExecutionResult) (tcs : List TestCaseWithData)
    (er : ExecutionResult) (h : cr.success = true) :
    runProcess (some true) er = (abortedExecResult, 0) ∧
    abortedExecResult.aborted = true ∧
    abortedExecResult.timedOut = false ∧
    abortedExecResult.executionTimeMs = 0 ∧
    abortedExecResult.stdout = "" ∧
    (judgeAllWith mode cr exec (some true) tcs).2 = 0 ∧
    ∀ r ∈ (judgeAllWith mode cr exec (some true) tcs).1,
      r.verdict = Verdict.RE ∧ r.exitCode = some (-1) := by
  refine ⟨rfl, rfl, rfl, rfl, rfl, ?_, ?_⟩
  · simp [judgeAllWith, h, runProcess]
  · intro r hr
    simp only [judgeAllWith, h, Bool.true_eq_false, if_neg, ite_false,
      List.mem_map] at hr
    obtain ⟨tc, _, rfl⟩ := hr
    exact ⟨rfl, rfl⟩

theorem C5_preabort_behavior_witness :
    runProcess (some true) ⟨"x", "y", 0, 9, false, false, none⟩ =
      (abortedExecResult, 0) ∧
    abortedExecResult.aborted = true ∧
    abortedExecResult.timedOut = false ∧
    abortedExecResult.executionTimeMs = 0 ∧
    abortedExecResult.stdout = "" ∧
    (judgeAllWith ComparisonMode.trim ⟨true, some "/out", none, 0, some false⟩
      (fun _ => ⟨"x", "y", 0, 9, false, false, none⟩) (some true)
      [⟨"t1", "in", "out"⟩]).2 = 0 ∧
    ∀ r ∈ (judgeAllWith ComparisonMode.trim
        ⟨true, some "/out", none, 0, some false⟩
        (fun _ => ⟨"x", "y", 0, 9, false, false, none⟩) (some true)
        [⟨"t1", "in", "out"⟩]).1,
      r.verdict = Verdict.RE ∧ r.exitCode = some (-1) :=
  C5_preabort_behavior ComparisonMode.trim
    ⟨true, some "/out", none, 0, some false⟩
    (fun _ => ⟨"x", "y", 0, 9, false, false, none⟩)
    [⟨"t1", "in", "out"⟩] ⟨"x", "y", 0, 9, false, false, none⟩ rfl

/-- C5 counterexample: a batch cancelled before any test starts spawns no
process, yet its results are reported with verdict `RE` — refuting the
claim's "cancellation results are ... not reported as TLE or RE". -/
theorem C5_counterexample :
    ((judgeAllWith ComparisonMode.trim ⟨true, some "/out", none, 0, some false⟩
      (fun _ => abortedExecResult) (some true)
      [⟨"t1", "in", "out"⟩]).1.map (fun r => r.verdict) = [Verdict.RE]) ∧
    (judgeAllWith ComparisonMode.trim ⟨true, some "/out", none, 0, some false⟩
      (fun _ => abortedExecResult) (some true)
      [⟨"t1", "in", "out"⟩]).2 = 0 := by
  exact ⟨rfl, rfl⟩

/-- C8 (amended): `loadFromConfiguration` skips a configured language whose
name is empty, whose extension list is absent, or whose run-command template
is absent or empty (a present-but-empty extension list is accepted), and
every extension of an accepted language is stored lowercased exactly as
configured — no leading dot is added. -/
theorem C8_registry_validation (langs : List (String × LanguageConfig)) :
    (∀ (id : String) (p : CustomLanguageProvider),
      (id, p) ∈ loadFromConfiguration langs →
      ∃ cfg, (id, cfg) ∈ langs ∧ cfg.name ≠ "" ∧ cfg.extensions ≠ none ∧
        cfg.runArgs ≠ none ∧ cfg.runArgs ≠ some [] ∧
        p.extensions = (cfg.extensions.getD []).map strToLower) ∧
    (∀ (id : String) (cfg : LanguageConfig), (id, cfg) ∈ langs →
      configValid cfg = true →
      (id, mkCustomLanguageProvider id cfg) ∈ loadFromConfiguration langs) := by
  constructor
  · intro id p h
    simp only [loadFromConfiguration, List.mem_filterMap] at h
    obtain ⟨⟨id', cfg⟩, hmem, hf⟩ := h
    by_cases hv : configValid cfg = true
    · rw [if_pos hv] at hf
      rw [Option.some.injEq, Prod.mk.injEq] at hf
      obtain ⟨rfl, rfl⟩ := hf
      refine ⟨cfg, hmem, ?_, ?_, ?_, ?_, rfl⟩ <;>
        (intro hcon; simp [configValid, hcon] at hv)
    · rw [if_neg hv] at hf
      simp at hf
  · intro id cfg hmem hv
    simp only [loadFromConfiguration, List.mem_filterMap]
    exact ⟨(id, cfg), hmem, by rw [if_pos hv]⟩

theorem C8_registry_validation_witness :
    (∃ cfg, ("python", cfg) ∈
        [("python", (⟨"Python", some ["PY"], none,
          some ["python", "${sourceFile}"], none⟩ : LanguageConfig))] ∧
      cfg.name ≠ "" ∧ cfg.extensions ≠ none ∧ cfg.runArgs ≠ none ∧
      cfg.runArgs ≠ some [] ∧
      (mkCustomLanguageProvider "python"
        ⟨"Python", some ["PY"], none, some ["python", "${sourceFile}"],
          none⟩).extensions = (cfg.extensions.getD []).map strToLower) ∧
    ("python", mkCustomLanguageProvider "python"
      ⟨"Python", some ["PY"], none, some ["python", "${sourceFile}"], none⟩) ∈
      loadFromConfiguration
        [("python", ⟨"Python", some ["PY"], none,
          some ["python", "${sourceFile}"], none⟩)] :=
  ⟨(C8_registry_validation
      [("python", ⟨"Python", some ["PY"], none,
        some ["python", "${sourceFile}"], none⟩)]).1 "python"
    (mkCustomLanguageProvider "python"
      ⟨"Python", some ["PY"], none, some ["python", "${sourceFile}"], none⟩)
    (by decide),
   (C8_registry_validation
      [("python", ⟨"Python", some ["PY"], none,
        some ["python", "${sourceFile}"], none⟩)]).2 "python"
    ⟨"Python", some ["PY"], none, some ["python", "${sourceFile}"], none⟩
    (by decide) (by decide)⟩

/-- C8 counterexample: an accepted extension configured as `"PY"` is stored
as `"py"` — lowercased but without a leading dot (the claim requires
`".py"`); and a language configured with a present-but-empty extension list
is accepted rather than skipped. -/
theorem C8_counterexample :
    ((loadFromConfiguration
      [("python", ⟨"Python", some ["PY"], none,
        some ["python", "${sourceFile}"], none⟩),
       ("noexts", ⟨"Weird", some [], none, some ["run"], none⟩)]).map
        (fun kv => (kv.1, kv.2.extensions))) =
      [("python", ["py"]), ("noexts", [])] ∧
    (["py"] : List String) ≠ [".py"] :=
  ⟨rfl, by decide⟩

/-- C9 (amended): `getExecutablePath` is absent for interpreted languages and
otherwise returns `outputDir` joined with the source's basename-without-
extension plus the configured output extension (or the platform default);
the executable-file placeholder is interpolated with the platform-default
extension only, so it equals `getExecutablePath` exactly when no
`outputExtension` override is configured. -/
theorem C9_artifact_path (win32 : Bool) (p : CustomLanguageProvider)
    (src out : String)
    (hclass : hasSub "${className}".data
      (pathJoin win32 out (parseName win32 src ++
        (if win32 then ".exe" else ""))).data = false) :
    (p.compileArgs = none ∨ p.compileArgs = some [] →
      getExecutablePath win32 p src out = none) ∧
    (p.compileArgs ≠ none → p.compileArgs ≠ some [] →
      getExecutablePath win32 p src out =
        some (pathJoin win32 out (parseName win32 src ++
          p.outputExtension.getD (if win32 then ".exe" else "")))) ∧
    interpolateVariables win32 "${executableFile}" src out =
      pathJoin win32 out (parseName win32 src ++
        (if win32 then ".exe" else "")) ∧
    (p.outputExtension = none → p.compileArgs ≠ none →
      p.compileArgs ≠ some [] →
      getExecutablePath win32 p src out =
        some (interpolateVariables win32 "${executableFile}" src out)) := by
  have hinterp : interpolateVariables win32 "${executableFile}" src out =
      pathJoin win32 out (parseName win32 src ++
        (if win32 then ".exe" else "")) := by
    simp only [interpolateVariables]
    rw [replaceAll_of_hasSub_false "${executableFile}" "${sourceFile}" src
          (by decide),
        replaceAll_of_hasSub_false "${executableFile}" "${outputDir}" out
          (by decide),
        replaceAll_execFile_token,
        replaceAll_of_hasSub_false
          (pathJoin win32 out (parseName win32 src ++
            (if win32 then ".exe" else "")))
          "${className}" (parseName win32 src) hclass]
  refine ⟨?_, ?_, hinterp, ?_⟩
  · rintro (h | h) <;> simp [getExecutablePath, h]
  · intro h1 h2
    simp [getExecutablePath, h1, h2]
  · intro h0 h1 h2
    rw [hinterp]
    simp [getExecutablePath, h0, h1, h2]

theorem C9_artifact_path_witness :
    getExecutablePath false
      ⟨"cpp", "C++", [".cpp"],
        some ["g++", "${sourceFile}", "-o", "${executableFile}"],
        ["${executableFile}"], none⟩ "/src/main.cpp" "/out" =
      some (interpolateVariables false "${executableFile}" "/src/main.cpp"
        "/out") :=
  (C9_artifact_path false
    ⟨"cpp", "C++", [".cpp"],
      some ["g++", "${sourceFile}", "-o", "${executableFile}"],
      ["${executableFile}"], none⟩ "/src/main.cpp" "/out"
    (by decide)).2.2.2 rfl (by decide) (by decide)

/-- C9 counterexample: with a configured `.class` output extension the
resolved artifact path is `/out/Main.class`, but the interpolated
executable-file placeholder is `/out/Main` — the two are not the same path,
refuting the claim that the placeholder always equals `resolveArtifactPath`. -/
theorem C9_counterexample :
    getExecutablePath false
      ⟨"java", "Java", [".java"],
        some ["javac", "-d", "${outputDir}", "${sourceFile}"],
        ["java", "-cp", "${outputDir}", "${className}"], some ".class"⟩
      "/src/Main.java" "/out" = some "/out/Main.class" ∧
    interpolateVariables false "${executableFile}" "/src/Main.java" "/out" =
      "/out/Main" ∧
    some ("/out/Main.class" : String) ≠ some ("/out/Main" : String) :=
  ⟨by decide, by decide, by decide⟩

theorem recompileModel_exit0 (win32 : Bool) (p : CustomLanguageProvider)
    (cache : List (String × CacheEntry)) (fs : FSModel) (now : Nat)
    (outputDir sourcePath hash so se ep : String) (cmd : String × List String)
    (hcmd : getCompileCommand win32 p sourcePath outputDir = some cmd)
    (hep : getExecutablePath win32 p sourcePath outputDir = some ep) :
    recompileModel win32 p cache fs (CompilerRun.exited 0 so se) now
      outputDir sourcePath hash =
      ⟨{ success := true, outputDir := some outputDir, error := none,
         compilationTimeMs := 0, cached := some false },
       assocSet cache sourcePath ⟨hash, outputDir, some ep, now⟩,
       fsWrite fs ep "", 1⟩ := by
  simp [recompileModel, hcmd, runCompilerModel, hep]

theorem recompileModel_cache_of_failure (win32 : Bool)
    (p : CustomLanguageProvider) (cache : List (String × CacheEntry))
    (fs : FSModel) (run : CompilerRun) (now : Nat)
    (outputDir sourcePath hash : String) (cmd : String × List String)
    (hcmd : getCompileCommand win32 p sourcePath outputDir = some cmd)
    (hfail : (recompileModel win32 p cache fs run now outputDir sourcePath
      hash).result.success = false) :
    (recompileModel win32 p cache fs run now outputDir sourcePath
      hash).cache = cache := by
  by_cases hs : (runCompilerModel cmd.1 outputDir run).success = true
  · simp [recompileModel, hcmd, hs] at hfail
  · simp [recompileModel, hcmd, hs]

/-- C4: for a compiled language, a fresh successful compile is followed by a
second compile of the unchanged source that returns `cached = true` without
spawning the compiler; deleting the recorded artifact in between makes the
next compile invalidate the entry and recompile with `cached = false` even
though the content hash still matches; and a cache entry is created or
overwritten only by a successful compile. -/
theorem C4_cache_behavior (win32 : Bool) (hashFn : String → String)
    (reg : List (String × CustomLanguageProvider))
    (cache0 : List (String × CacheEntry)) (fs0 : FSModel)
    (now1 now2 now3 : Nat) (outputDir sourcePath content ep : String)
    (p : CustomLanguageProvider) (so se so3 se3 : String)
    (run2 : CompilerRun) (cmd : String × List String)
    (o1 o2 o3 : CompileOut)
    (hdet : detectProvider win32 reg sourcePath = some p)
    (hcmd : getCompileCommand win32 p sourcePath outputDir = some cmd)
    (hread : fsRead fs0 sourcePath = some content)
    (hep : getExecutablePath win32 p sourcePath outputDir = some ep)
    (hne : ep ≠ sourcePath)
    (hfresh : assocGet cache0 sourcePath = none)
    (ho1 : o1 = compileModel win32 hashFn reg cache0 fs0
      (CompilerRun.exited 0 so se) now1 outputDir sourcePath)
    (ho2 : o2 = compileModel win32 hashFn reg o1.cache o1.fs run2 now2
      outputDir sourcePath)
    (ho3 : o3 = compileModel win32 hashFn reg o1.cache (fsDelete o1.fs ep)
      (CompilerRun.exited 0 so3 se3) now3 outputDir sourcePath) :
    (o1.result.success = true ∧ o1.result.cached = some false ∧
      o1.compilerCalls = 1) ∧
    (o2.result.success = true ∧ o2.result.cached = some true ∧
      o2.compilerCalls = 0) ∧
    (o3.result.success = true ∧ o3.result.cached = some false ∧
      o3.compilerCalls = 1) ∧
    (∀ (cache' : List (String × CacheEntry)) (fs' : FSModel)
      (run' : CompilerRun) (now' : Nat),
      (compileModel win32 hashFn reg cache' fs' run' now' outputDir
        sourcePath).result.success = false →
      ∀ q, assocGet (compileModel win32 hashFn reg cache' fs' run' now'
          outputDir sourcePath).cache q = assocGet cache' q ∨
        assocGet (compileModel win32 hashFn reg cache' fs' run' now'
          outputDir sourcePath).cache q = none) := by
  have e1 : compileModel win32 hashFn reg cache0 fs0
      (CompilerRun.exited 0 so se) now1 outputDir sourcePath =
      ⟨{ success := true, outputDir := some outputDir, error := none,
         compilationTimeMs := 0, cached := some false },
       assocSet cache0 sourcePath
         ⟨hashFn content, outputDir, some ep, now1⟩,
       fsWrite fs0 ep "", 1⟩ := by
    simp only [compileModel, hdet, hcmd, hread, hfresh]
    exact recompileModel_exit0 win32 p cache0 fs0 now1 outputDir sourcePath
      (hashFn content) so se ep cmd hcmd hep
  have hcache1 : o1.cache =
      assocSet cache0 sourcePath ⟨hashFn content, outputDir, some ep, now1⟩ := by
    rw [ho1, e1]
  have hfs1 : o1.fs = fsWrite fs0 ep "" := by rw [ho1, e1]
  have hread2 : fsRead (fsWrite fs0 ep "") sourcePath = some content := by
    show assocGet (assocSet fs0 ep "") sourcePath = some content
    rw [assocGet_set_ne _ _ _ _ (Ne.symm hne)]
    exact hread
  have hget2 : assocGet (assocSet cache0 sourcePath
      ⟨hashFn content, outputDir, some ep, now1⟩) sourcePath =
      some ⟨hashFn content, outputDir, some ep, now1⟩ :=
    assocGet_set_self cache0 sourcePath _
  have hex2 : fsExists (fsWrite fs0 ep "") ep = true := by
    show (assocGet (assocSet fs0 ep "") ep).isSome = true
    rw [assocGet_set_self]
    rfl
  have e2 : compileModel win32 hashFn reg o1.cache o1.fs run2 now2
      outputDir sourcePath =
      ⟨{ success := true, outputDir := some outputDir, error := none,
         compilationTimeMs := 0, cached := some true },
       assocSet cache0 sourcePath
         ⟨hashFn content, outputDir, some ep, now1⟩,
       fsWrite fs0 ep "", 0⟩ := by
    rw [hcache1, hfs1]
    simp only [compileModel, hdet, hcmd, hread2, hget2, hex2,
      beq_self_eq_true, if_true]
  have hread3 : fsRead (fsDelete (fsWrite fs0 ep "") ep) sourcePath =
      some content := by
    show assocGet (assocDelete (assocSet fs0 ep "") ep) sourcePath =
      some content
    rw [assocGet_delete_ne _ _ _ (Ne.symm hne)]
    exact hread2
  have hex3 : fsExists (fsDelete (fsWrite fs0 ep "") ep) ep = false := by
    show (assocGet (assocDelete (assocSet fs0 ep "") ep) ep).isSome = false
    rw [assocGet_delete_self]
    rfl
  have e3 : compileModel win32 hashFn reg o1.cache (fsDelete o1.fs ep)
      (CompilerRun.exited 0 so3 se3) now3 outputDir sourcePath =
      ⟨{ success := true, outputDir := some outputDir, error := none,
         compilationTimeMs := 0, cached := some false },
       assocSet (assocDelete (assocSet cache0 sourcePath
           ⟨hashFn content, outputDir, some ep, now1⟩) sourcePath)
         sourcePath ⟨hashFn content, outputDir, some ep, now3⟩,
       fsWrite (fsDelete (fsWrite fs0 ep "") ep) ep "", 1⟩ := by
    rw [hcache1, hfs1]
    simp only [compileModel, hdet, hcmd, hread3, hget2, hex3,
      beq_self_eq_true, if_true, Bool.false_eq_true, if_false]
    exact recompileModel_exit0 win32 p _ _ now3 outputDir sourcePath
      (hashFn content) so3 se3 ep cmd hcmd hep
  refine ⟨by rw [ho1, e1]; exact ⟨rfl, rfl, rfl⟩,
    by rw [ho2, e2]; exact ⟨rfl, rfl, rfl⟩,
    by rw [ho3, e3]; exact ⟨rfl, rfl, rfl⟩, ?_⟩
  intro cache' fs' run' now' hfail q
  simp only [compileModel, hdet, hcmd] at hfail ⊢
  revert hfail
  cases hr : fsRead fs' sourcePath with
  | none => intro _; exact Or.inl rfl
  | some content' =>
    cases hc : assocGet cache' sourcePath with
    | none =>
      intro hfail
      rw [recompileModel_cache_of_failure win32 p cache' fs' run' now'
        outputDir sourcePath (hashFn content') cmd hcmd hfail]
      exact Or.inl rfl
    | some entry =>
      try dsimp only
      by_cases hm : (entry.contentHash == hashFn content') = true
      · rw [if_pos hm]
        cases hee : entry.executablePath with
        | some e =>
          try dsimp only
          by_cases hex : fsExists fs' e = true
          · rw [if_pos hex]
            intro hfail
            simp at hfail
          · rw [if_neg hex]
            intro hfail
            rw [recompileModel_cache_of_failure win32 p
              (assocDelete cache' sourcePath) fs' run' now' outputDir
              sourcePath (hashFn content') cmd hcmd hfail]
            by_cases hq : q = sourcePath
            · right
              rw [hq, assocGet_delete_self]
            · left
              rw [assocGet_delete_ne _ _ _ hq]
        | none =>
          intro hfail
          simp at hfail
      · rw [if_neg hm]
        intro hfail
        rw [recompileModel_cache_of_failure win32 p cache' fs' run' now'
          outputDir sourcePath (hashFn content') cmd hcmd hfail]
        exact Or.inl rfl

theorem C4_cache_behavior_witness :
    (compileOut1.result.success = true ∧
      compileOut1.result.cached = some false ∧
      compileOut1.compilerCalls = 1) ∧
    (compileOut2.result.success = true ∧
      compileOut2.result.cached = some true ∧
      compileOut2.compilerCalls = 0) ∧
    (compileOut3.result.success = true ∧
      compileOut3.result.cached = some false ∧
      compileOut3.compilerCalls = 1) :=
  have h := C4_cache_behavior false id regC [] fsC 5 6 7 "/out"
    "/src/main.cpp" "int main(){}" "/out/main" cppProviderC "" "" "" ""
    (CompilerRun.exited 0 "" "") ("g++",
      ["/src/main.cpp", "-o", "/out/main"])
    compileOut1 compileOut2 compileOut3
    (by decide) (by decide) rfl (by decide) (by decide) rfl
    rfl rfl rfl
  ⟨h.1, h.2.1, h.2.2.1⟩
